import Mathlib

/-!
A shallow embedding of the self-upgrade helper (`paths.go`, `upgrade.go`)
of VeritasOS/tool-upgrade-go.

Modelling conventions:
* File contents are byte strings, modelled as Lean `String`.
* The filesystem is an association list from path to content.
* A Go `error` value is `Option GoError`: `none` is Go's nil error.
  `GoError.pathError m` models a `*os.PathError` whose underlying `Err`
  prints as `m`; every other constructor models a non-`*os.PathError`
  error value.  `errorsWrap` models `errors.Wrap` from github.com/pkg/errors,
  which returns nil when asked to wrap a nil error.
* The network is a function from URL to transport outcome; a response
  carries its status code and the outcome of reading its body, so a
  failing `ioutil.ReadAll` / failing `io.Copy` on the body is the
  `bodyResult = .error` case.
* Each fallible OS call that the claims exercise (TempFile, Chmod, Rename,
  shutil.Copy, Remove, RemoveAll, OpenFile, Stat, Truncate, os.Executable)
  is driven by an explicit oracle field in the environment; a `none`
  oracle means the call behaves normally on the modelled filesystem.
* `semver.Make` of github.com/blang/semver is modelled on the fragment the
  repository exercises: versions of the shape `major.minor.patch` with
  numeric identifiers (no leading zeroes), compared lexicographically.
  Pre-release and build metadata are outside of the fragment any claim or
  caller touches.
* Wall-clock instants are rationals measured in hours, so that
  `time.Duration.Hours()` comparisons are exact arithmetic.
-/

/-- A Go error value (the non-nil case). `pathError m` is a `*os.PathError`
whose wrapped `Err` has message `m`; `msg` is any other plain error such as
one built by `fmt.Errorf`; `wrap` is the result of a non-nil
`errors.Wrap`. -/
inductive GoError where
  | msg : String → GoError
  | pathError : String → GoError
  | wrap : String → GoError → GoError
deriving DecidableEq, Repr

/-- Model of `errors.Wrap` from github.com/pkg/errors: wrapping a nil error
returns nil. -/
def errorsWrap (e : Option GoError) (m : String) : Option GoError :=
  match e with
  | none => none
  | some e => some (GoError.wrap m e)

/-- Is this error value dynamically a `*os.PathError`?  The unchecked type
assertion `err.(*os.PathError)` in `Download` panics exactly when this is
false. -/
def isOsPathError : GoError → Bool
  | GoError.pathError _ => true
  | _ => false

/-- Content of a file, a byte string. -/
abbrev Bytes := String

/-- The filesystem: an association list from path to file content. -/
abbrev FS := List (String × Bytes)

/-- Read the content of a file, `none` when the path does not exist. -/
def fsRead : FS → String → Option Bytes
  | [], _ => none
  | (q, b) :: rest, p => if q = p then some b else fsRead rest p

/-- Create or overwrite a file with the given content. -/
def fsWrite : FS → String → Bytes → FS
  | [], p, b => [(p, b)]
  | (q, c) :: rest, p, b => if q = p then (p, b) :: rest else (q, c) :: fsWrite rest p b

/-- Delete a path (a no-op when the path does not exist). -/
def fsRemove : FS → String → FS
  | [], _ => []
  | (q, c) :: rest, p => if q = p then fsRemove rest p else (q, c) :: fsRemove rest p

/-- Model of `os.Rename src dst`: fails when the oracle injects an error or
when the source does not exist; on success the source's content moves to the
destination (overwriting it) and the source disappears. A failed rename
leaves the filesystem unchanged. -/
def osRename (oracle : Option GoError) (fs : FS) (src dst : String) :
    Except GoError FS :=
  match oracle with
  | some e => Except.error e
  | none =>
    match fsRead fs src with
    | none => Except.error (GoError.pathError "no such file or directory")
    | some b => Except.ok (fsWrite (fsRemove fs src) dst b)

/-- Model of `os.Remove p`: fails when the oracle injects an error or the
path does not exist; on success the path is deleted. -/
def osRemove (oracle : Option GoError) (fs : FS) (p : String) :
    Option GoError × FS :=
  match oracle with
  | some e => (some e, fs)
  | none =>
    match fsRead fs p with
    | none => (some (GoError.pathError "no such file or directory"), fs)
    | some _ => (none, fsRemove fs p)

/-- Model of `os.RemoveAll p`: succeeds (as a no-op) when the path does not
exist; the oracle injects the failure case. -/
def osRemoveAll (oracle : Option GoError) (fs : FS) (p : String) :
    Option GoError × FS :=
  match oracle with
  | some e => (some e, fs)
  | none => (none, fsRemove fs p)

/-- Model of `shutil.Copy src dst false` from github.com/termie/go-shutil:
copies the source's bytes over the destination.  When the oracle injects a
failure, the destination may be left holding whatever bytes were written
before the failure (`residue`).  Fails also when the source is missing. -/
def shutilCopy (oracle : Option GoError) (residue : Bytes) (fs : FS)
    (src dst : String) : Option GoError × FS :=
  match oracle with
  | some e => (some e, fsWrite fs dst residue)
  | none =>
    match fsRead fs src with
    | none => (some (GoError.pathError "no such file or directory"), fs)
    | some b => (none, fsWrite fs dst b)

/-- A semantic version of the shape `major.minor.patch` (the fragment of
github.com/blang/semver this repository exercises). -/
structure Version where
  major : Nat
  minor : Nat
  patch : Nat
deriving DecidableEq, Repr

/-- Strict semver precedence on the numeric triple. -/
def Version.lt (a b : Version) : Bool :=
  decide (a.major < b.major ∨ (a.major = b.major ∧
    (a.minor < b.minor ∨ (a.minor = b.minor ∧ a.patch < b.patch))))

/-- `semver.Version.GT`. -/
def Version.gt (a b : Version) : Bool := Version.lt b a

/-- `semver.Version.GTE`. -/
def Version.gte (a b : Version) : Bool := !Version.lt a b

/-- `semver.Version.String`. -/
def versionString (v : Version) : String :=
  toString v.major ++ "." ++ toString v.minor ++ "." ++ toString v.patch

/-- Accumulate decimal digits into a number, `none` on a non-digit. -/
def digitsToNat : List Char → Nat → Option Nat
  | [], acc => some acc
  | c :: rest, acc =>
    if c.isDigit then digitsToNat rest (acc * 10 + (c.toNat - 48)) else none

/-- Split a character list on the dot separator. -/
def splitOnDot (cs : List Char) : List (List Char) :=
  match cs with
  | [] => [[]]
  | c :: rest =>
    if c = '.' then [] :: splitOnDot rest
    else
      match splitOnDot rest with
      | [] => [[c]]
      | h :: t => (c :: h) :: t

/-- A numeric identifier of a semantic version: decimal digits, nonempty,
with no leading zero. -/
def parseNumericIdent (cs : List Char) : Option Nat :=
  match cs with
  | [] => none
  | c :: rest =>
    if c = '0' ∧ rest ≠ [] then none
    else digitsToNat (c :: rest) 0

/-- Model of `semver.Make` on `major.minor.patch` version strings: exactly
three dot-separated numeric identifiers. -/
def semverMake (s : String) : Except GoError Version :=
  match (splitOnDot s.data).map parseNumericIdent with
  | [some x, some y, some z] => Except.ok ⟨x, y, z⟩
  | _ => Except.error (GoError.msg ("No Major.Minor.Patch elements found in " ++ s))

/-- `CurrentVersion` from upgrade.go: parse the caller-supplied version. -/
def CurrentVersion (version : String) : Except GoError Version :=
  semverMake version

/-- An HTTP response: status code, and the outcome of reading the body
(reading can itself fail, which is how a failing `ioutil.ReadAll` or a
failing `io.Copy` from the body is modelled). -/
structure HTTPResponse where
  status : Nat
  bodyResult : Except GoError Bytes

/-- The network: `http.Get` as a function from URL to outcome; a transport
failure is the `Except.error` case. -/
abbrev Net := String → Except GoError HTTPResponse

/-- `AvailableVersion` from upgrade.go.  Returns the result together with
the list of URLs requested (for this function, always exactly one GET to
`repo ++ "/" ++ pre ++ channel`, where `pre` models the filePrefix
argument). -/
def AvailableVersion (net : Net) (repo pre channel : String) :
    Except GoError Version × List String :=
  let url := repo ++ "/" ++ pre ++ channel
  match net url with
  | Except.error e => (Except.error e, [url])
  | Except.ok resp =>
    if resp.status ≠ 200 then
      (Except.error (GoError.msg
        ("while getting version; unexpected status " ++ toString resp.status)), [url])
    else
      match resp.bodyResult with
      | Except.error e => (Except.error e, [url])
      | Except.ok body => (semverMake body, [url])

/-- `GetHome` from paths.go: the HOME environment variable, falling back to
USERPROFILE when HOME is empty or unset (`os.Getenv` yields the empty
string for an unset variable). -/
def GetHome (homeEnv userProfileEnv : String) : String :=
  if homeEnv = "" then userProfileEnv else homeEnv

/-- Model of `filepath.Join` on two elements: empty elements are dropped,
the rest joined by the separator.  (Go also runs `Clean`; on the path
shapes occurring here, with no dot-dot or duplicated separators, `Clean`
is the identity.) -/
def filepathJoin (a b : String) : String :=
  if a = "" then b else if b = "" then a else a ++ "/" ++ b

/-- The cache marker path built at the top of `CheckAndNotifyIfOutOfDate`. -/
def markerFileName (homeEnv userProfileEnv tool : String) : String :=
  filepathJoin (GetHome homeEnv userProfileEnv) ("." ++ tool ++ "-version-check")

/-- Environment for `CheckAndNotifyIfOutOfDate`: the two relevant
environment variables, the current instant (hours), the oracles for the
marker-file OS calls, and the network. -/
structure CheckEnv where
  homeEnv : String
  userProfileEnv : String
  now : Rat
  openErr : Option GoError
  statErr : Option GoError
  truncateErr : Option GoError
  net : Net

/-- Outcome of `CheckAndNotifyIfOutOfDate`: the returned (bool, error)
pair, the path of the cache marker file the call used, the marker file's
modification time afterwards (`none` when the file still does not exist),
and the URLs requested. -/
structure CheckOut where
  result : Except GoError Bool
  markerPath : String
  marker : Option Rat
  requests : List String

/-- `CheckAndNotifyIfOutOfDate` from upgrade.go.  `marker` is the marker
file's modification time before the call (`none` when the file does not
exist; `os.OpenFile` with `O_CREATE` then creates it, with modification
time `env.now`).  `file.Truncate 0` refreshes the modification time to
`env.now`. -/
def CheckAndNotifyIfOutOfDate (env : CheckEnv) (marker : Option Rat)
    (tool currentVersion repo pre versionStable : String)
    (hoursToCheckForUpdate : Rat) : CheckOut :=
  let fn := markerFileName env.homeEnv env.userProfileEnv tool
  match env.openErr with
  | some e => ⟨Except.error e, fn, marker, []⟩
  | none =>
    let mt := match marker with
      | some t => t
      | none => env.now
    match env.statErr with
    | some e => ⟨Except.error e, fn, some mt, []⟩
    | none =>
      if env.now - mt < hoursToCheckForUpdate then
        ⟨Except.ok false, fn, some mt, []⟩
      else
        match env.truncateErr with
        | some e => ⟨Except.error e, fn, some mt, []⟩
        | none =>
          match CurrentVersion currentVersion with
          | Except.error e => ⟨Except.error e, fn, some env.now, []⟩
          | Except.ok curr =>
            match AvailableVersion env.net repo pre versionStable with
            | (Except.error e, reqs) => ⟨Except.error e, fn, some env.now, reqs⟩
            | (Except.ok avail, reqs) =>
              ⟨Except.ok (Version.gt avail curr), fn, some env.now, reqs⟩

/-- Environment for `Download`, `RemoveBackup` and `Upgrade`: the network,
the platform identifiers, and one oracle per fallible OS call in the
source. -/
structure Env where
  net : Net
  goos : String
  goarch : String
  tempFileResult : Except GoError String
  chmodErr : Option GoError
  executableResult : Except GoError String
  removeAllBackupErr : Option GoError
  renameToBackupErr : Option GoError
  copyErr : Option GoError
  copyResidue : Bytes
  renameBackupToSelfErr : Option GoError
  removeTmpErr : Option GoError

/-- Outcome of `Download`: a run-time panic (from the unchecked type
assertion), an error return, or the temp file's path; each with the
filesystem afterwards and the URLs requested. -/
inductive DownloadOut where
  | panicked (fs : FS) (reqs : List String)
  | failed (e : GoError) (fs : FS) (reqs : List String)
  | ok (tmpfn : String) (fs : FS) (reqs : List String)
deriving DecidableEq

/-- The part of `Download` after the Chmod check, starting at
`tmpfn := tmp.Name()`.  The deferred cleanup removes the temp file only
when the OUTER `err` variable is non-nil at return time:
* the `http.Get` error is assigned to the outer `err`, so the cleanup
  fires on transport failure;
* the non-200 branch returns a fresh `fmt.Errorf` value without assigning
  the outer `err`, so the cleanup does not fire;
* the `io.Copy` error is bound by `:=` inside the `if`, shadowing the
  outer `err`, so the cleanup does not fire either. -/
def downloadFetch (env : Env) (fs : FS) (tmpfn : String)
    (repo version tool : String) : DownloadOut :=
  let url := repo ++ "/" ++ version ++ "/" ++ tool ++ "_" ++ env.goos ++ "_" ++ env.goarch
  match env.net url with
  | Except.error e => DownloadOut.failed e (fsRemove fs tmpfn) [url]
  | Except.ok resp =>
    if resp.status ≠ 200 then
      DownloadOut.failed (GoError.msg
        ("while getting updated binary; unexpected status " ++ toString resp.status)) fs [url]
    else
      match resp.bodyResult with
      | Except.error e => DownloadOut.failed e fs [url]
      | Except.ok body => DownloadOut.ok tmpfn (fsWrite fs tmpfn body) [url]

/-- `Download` from upgrade.go.  `ioutil.TempFile` creates the (empty)
temporary file.  The Chmod error branch performs the unchecked type
assertion `err.(*os.PathError)`: a non-PathError chmod error panics; a
PathError whose message is not "not supported by windows" is returned
directly — before the deferred cleanup is registered, so the temp file is
left behind; the windows PathError is tolerated and execution continues. -/
def Download (env : Env) (fs : FS) (repo version tool : String) : DownloadOut :=
  match env.tempFileResult with
  | Except.error e => DownloadOut.failed e fs []
  | Except.ok tmpfn =>
    let fs1 := fsWrite fs tmpfn ""
    match env.chmodErr with
    | none => downloadFetch env fs1 tmpfn repo version tool
    | some (GoError.pathError m) =>
      if m = "not supported by windows" then
        downloadFetch env fs1 tmpfn repo version tool
      else
        DownloadOut.failed (GoError.pathError m) fs1 []
    | some _ => DownloadOut.panicked fs1 []

/-- `RemoveBackup` from upgrade.go: locate the running executable, compute
the backup path `arg0 ++ "~"`, and remove any stale backup there. -/
def RemoveBackup (env : Env) (fs : FS) :
    Except GoError (String × String) × FS :=
  match env.executableResult with
  | Except.error e => (Except.error (GoError.wrap "unable to find executable" e), fs)
  | Except.ok arg0 =>
    let backup := arg0 ++ "~"
    match osRemoveAll env.removeAllBackupErr fs backup with
    | (some e, fs1) =>
      (Except.error (GoError.wrap ("unable to remove " ++ backup) e), fs1)
    | (none, fs1) => (Except.ok (arg0, backup), fs1)

/-- Outcome of `Upgrade`: a propagated panic, or a normal return with the
Go error value (nil as `none`), each with the filesystem afterwards and
the URLs requested. -/
inductive UpgradeOut where
  | panicked (fs : FS) (reqs : List String)
  | done (e : Option GoError) (fs : FS) (reqs : List String)
deriving DecidableEq

/-- `Upgrade` from upgrade.go.  The copy-failure branch mirrors the source
exactly: the copy error held in `err` is overwritten by
`err = os.Rename(backup, arg0)`; when that recovery rename succeeds, `err`
is nil and the final `return errors.Wrap(err, ...)` wraps a nil error,
which yields nil.  (`os.Args[0]` in the error text is modelled by
`arg0`.) -/
def Upgrade (env : Env) (fs : FS)
    (tool currentVersion repo pre versionStable : String)
    (upgradeForce : Bool) : UpgradeOut :=
  match CurrentVersion currentVersion with
  | Except.error e =>
    UpgradeOut.done (errorsWrap (some e) "unable to get current version") fs []
  | Except.ok curr =>
  match AvailableVersion env.net repo pre versionStable with
  | (Except.error e, reqs) =>
    UpgradeOut.done (errorsWrap (some e) "unable to get available version") fs reqs
  | (Except.ok avail, reqs0) =>
  if !upgradeForce && Version.gte curr avail then
    UpgradeOut.done none fs reqs0
  else
    match RemoveBackup env fs with
    | (Except.error e, fs1) => UpgradeOut.done (some e) fs1 reqs0
    | (Except.ok (arg0, backup), fs1) =>
    match Download env fs1 repo (versionString avail) tool with
    | DownloadOut.panicked fs2 reqs1 => UpgradeOut.panicked fs2 (reqs0 ++ reqs1)
    | DownloadOut.failed e fs2 reqs1 =>
      UpgradeOut.done (errorsWrap (some e) ("unable to upgrade " ++ tool)) fs2 (reqs0 ++ reqs1)
    | DownloadOut.ok tmp fs2 reqs1 =>
    match osRename env.renameToBackupErr fs2 arg0 backup with
    | Except.error e =>
      UpgradeOut.done (errorsWrap (some e)
        ("unable to upgrade " ++ tool ++ " in-place; move " ++ tmp ++ " to " ++ arg0))
        fs2 (reqs0 ++ reqs1)
    | Except.ok fs3 =>
    match shutilCopy env.copyErr env.copyResidue fs3 tmp arg0 with
    | (some _copyErr, fs4) =>
      match osRename env.renameBackupToSelfErr fs4 backup arg0 with
      | Except.error e2 =>
        UpgradeOut.done (errorsWrap (some e2)
          ("upgrade failed and unable to recover from backup; move " ++ tmp ++ " to " ++ arg0))
          fs4 (reqs0 ++ reqs1)
      | Except.ok fs5 =>
        UpgradeOut.done (errorsWrap none
          ("unable to upgrade " ++ tool ++ " in-place; move " ++ tmp ++ " to " ++ arg0))
          fs5 (reqs0 ++ reqs1)
    | (none, fs4) =>
    match osRemove env.removeTmpErr fs4 tmp with
    | (some e, fs5) =>
      UpgradeOut.done (errorsWrap (some e) ("unable to clean up temp file; remove " ++ tmp))
        fs5 (reqs0 ++ reqs1)
    | (none, fs5) => UpgradeOut.done none fs5 (reqs0 ++ reqs1)

/-! ### Basic lemmas about the filesystem model -/

theorem fsRead_fsWrite_same (fs : FS) (p : String) (b : Bytes) :
    fsRead (fsWrite fs p b) p = some b := by
  induction fs with
  | nil => simp [fsRead, fsWrite]
  | cons hd tl ih =>
    obtain ⟨q, c⟩ := hd
    by_cases h : q = p
    · simp [fsWrite, fsRead, h]
    · simp [fsWrite, fsRead, h, ih]

theorem fsRead_fsWrite_ne (fs : FS) {p q : String} (h : q ≠ p) (b : Bytes) :
    fsRead (fsWrite fs p b) q = fsRead fs q := by
  induction fs with
  | nil => simp [fsRead, fsWrite, Ne.symm h]
  | cons hd tl ih =>
    obtain ⟨r, c⟩ := hd
    by_cases h2 : r = p
    · subst h2
      simp [fsWrite, fsRead, Ne.symm h]
    · simp [fsWrite, fsRead, h2, ih]

theorem fsRead_fsRemove_ne (fs : FS) {p q : String} (h : q ≠ p) :
    fsRead (fsRemove fs p) q = fsRead fs q := by
  induction fs with
  | nil => simp [fsRemove]
  | cons hd tl ih =>
    obtain ⟨r, c⟩ := hd
    by_cases h2 : r = p
    · subst h2
      simp [fsRemove, fsRead, Ne.symm h, ih]
    · simp [fsRemove, fsRead, h2, ih]

theorem fsWrite_fsWrite_same (fs : FS) (p : String) (b c : Bytes) :
    fsWrite (fsWrite fs p b) p c = fsWrite fs p c := by
  induction fs with
  | nil => simp [fsWrite]
  | cons hd tl ih =>
    obtain ⟨r, d⟩ := hd
    by_cases h : r = p
    · simp [fsWrite, h]
    · simp [fsWrite, h, ih]

/-! ### Shared unfolding lemmas for the happy paths -/

theorem availableVersion_ok (net : Net) (repo pre channel : String)
    (body : Bytes) (avail : Version)
    (hnet : net (repo ++ "/" ++ pre ++ channel) = Except.ok ⟨200, Except.ok body⟩)
    (hparse : semverMake body = Except.ok avail) :
    AvailableVersion net repo pre channel
      = (Except.ok avail, [repo ++ "/" ++ pre ++ channel]) := by
  simp [AvailableVersion, hnet, hparse]

theorem removeBackup_ok (env : Env) (fs : FS) (arg0 : String)
    (hexe : env.executableResult = Except.ok arg0)
    (hrm : env.removeAllBackupErr = none) :
    RemoveBackup env fs = (Except.ok (arg0, arg0 ++ "~"), fsRemove fs (arg0 ++ "~")) := by
  simp [RemoveBackup, hexe, hrm, osRemoveAll]

theorem download_ok (env : Env) (fs : FS) (repo version tool tmpfn : String)
    (body : Bytes)
    (htmp : env.tempFileResult = Except.ok tmpfn)
    (hch : env.chmodErr = none)
    (hnet : env.net (repo ++ "/" ++ version ++ "/" ++ tool ++ "_" ++ env.goos ++ "_" ++ env.goarch)
      = Except.ok ⟨200, Except.ok body⟩) :
    Download env fs repo version tool
      = DownloadOut.ok tmpfn (fsWrite fs tmpfn body)
          [repo ++ "/" ++ version ++ "/" ++ tool ++ "_" ++ env.goos ++ "_" ++ env.goarch] := by
  simp [Download, htmp, hch, downloadFetch, hnet, fsWrite_fsWrite_same]

/-! ### Claim theorems -/

/-- Claim C8: `AvailableVersion` issues exactly one HTTP GET, to the URL
`repo ++ "/" ++ pre ++ channel` (no other separator inserted); it returns an
error on transport failure or on a non-200 status, and otherwise returns
the response body parsed as a semantic version, failing when the body does
not parse. -/
theorem availableVersion_contract (net : Net) (repo pre channel : String) :
    (AvailableVersion net repo pre channel).2 = [repo ++ "/" ++ pre ++ channel]
    ∧ (∀ e, net (repo ++ "/" ++ pre ++ channel) = Except.error e →
        (AvailableVersion net repo pre channel).1 = Except.error e)
    ∧ (∀ resp, net (repo ++ "/" ++ pre ++ channel) = Except.ok resp →
        resp.status ≠ 200 →
        (AvailableVersion net repo pre channel).1 = Except.error (GoError.msg
          ("while getting version; unexpected status " ++ toString resp.status)))
    ∧ (∀ resp body, net (repo ++ "/" ++ pre ++ channel) = Except.ok resp →
        resp.status = 200 → resp.bodyResult = Except.ok body →
        (AvailableVersion net repo pre channel).1 = semverMake body) := by
  refine ⟨?_, ?_, ?_, ?_⟩
  · unfold AvailableVersion
    cases hn : net (repo ++ "/" ++ pre ++ channel) with
    | error e => simp [hn]
    | ok resp =>
      by_cases hs : resp.status = 200
      · cases hb : resp.bodyResult <;> simp [hn, hs, hb]
      · simp [hn, hs]
  · intro e hn
    simp [AvailableVersion, hn]
  · intro resp hn hs
    simp [AvailableVersion, hn, hs]
  · intro resp body hn hs hb
    simp [AvailableVersion, hn, hs, hb]

/-- A network answering every GET with status 200 and body "1.2.3". -/
def c8net : Net := fun _ => Except.ok ⟨200, Except.ok "1.2.3"⟩

/-- Witness for C8 at a concrete network and concrete URL parts. -/
theorem availableVersion_contract_witness :
    (AvailableVersion c8net "https://repo.example.com" "tool-" "stable").2
      = ["https://repo.example.com" ++ "/" ++ "tool-" ++ "stable"]
    ∧ (AvailableVersion c8net "https://repo.example.com" "tool-" "stable").1
      = semverMake "1.2.3" :=
  ⟨(availableVersion_contract c8net "https://repo.example.com" "tool-" "stable").1,
   (availableVersion_contract c8net "https://repo.example.com" "tool-" "stable").2.2.2
     ⟨200, Except.ok "1.2.3"⟩ "1.2.3" rfl rfl rfl⟩

/-- The marker path of a `CheckAndNotifyIfOutOfDate` call does not depend
on which branch the call takes. -/
theorem check_markerPath_eq (env : CheckEnv) (marker : Option Rat)
    (tool currentVersion repo pre versionStable : String) (hours : Rat) :
    (CheckAndNotifyIfOutOfDate env marker tool currentVersion repo pre
        versionStable hours).markerPath
      = markerFileName env.homeEnv env.userProfileEnv tool := by
  unfold CheckAndNotifyIfOutOfDate
  repeat' split
  all_goals simp [apply_ite CheckOut.markerPath]

/-- Claim C10: with HOME and USERPROFILE both unset or empty, `GetHome`
returns the empty string, and `CheckAndNotifyIfOutOfDate` then uses the
relative path `"." ++ tool ++ "-version-check"` as its cache marker
file. -/
theorem getHome_empty_relative_marker (env : CheckEnv) (marker : Option Rat)
    (tool currentVersion repo pre versionStable : String) (hours : Rat)
    (hhome : env.homeEnv = "") (huser : env.userProfileEnv = "") :
    GetHome env.homeEnv env.userProfileEnv = ""
    ∧ (CheckAndNotifyIfOutOfDate env marker tool currentVersion repo pre
          versionStable hours).markerPath
        = "." ++ tool ++ "-version-check" := by
  constructor
  · simp [GetHome, hhome, huser]
  · rw [check_markerPath_eq]
    simp [markerFileName, GetHome, filepathJoin, hhome, huser]

/-- An environment with both HOME and USERPROFILE empty and no network. -/
def c10env : CheckEnv :=
  ⟨"", "", 0, none, none, none, fun _ => Except.error (GoError.msg "offline")⟩

/-- Witness for C10 at a concrete environment and tool name. -/
theorem getHome_empty_relative_marker_witness :
    GetHome c10env.homeEnv c10env.userProfileEnv = ""
    ∧ (CheckAndNotifyIfOutOfDate c10env none "mytool" "1.0.0" "r" "p"
          "stable" 24).markerPath
        = "." ++ "mytool" ++ "-version-check" :=
  getHome_empty_relative_marker c10env none "mytool" "1.0.0" "r" "p"
    "stable" 24 rfl rfl

/-- Claim C4: `CheckAndNotifyIfOutOfDate` returns false with no network
request whenever `now` minus the marker's modification time is below the
configured hours; otherwise it resolves the current and the available
version and returns whether the available version is strictly greater,
surfacing any parse or resolution error. -/
theorem checkAndNotify_gate_and_resolution (env : CheckEnv) (mt : Rat)
    (tool currentVersion repo pre versionStable : String) (hours : Rat)
    (hopen : env.openErr = none) (hstat : env.statErr = none) :
    (env.now - mt < hours →
      CheckAndNotifyIfOutOfDate env (some mt) tool currentVersion repo pre
          versionStable hours
        = ⟨Except.ok false, markerFileName env.homeEnv env.userProfileEnv tool,
            some mt, []⟩)
    ∧ (¬ env.now - mt < hours → env.truncateErr = none →
        (∀ e, CurrentVersion currentVersion = Except.error e →
          (CheckAndNotifyIfOutOfDate env (some mt) tool currentVersion repo pre
              versionStable hours).result = Except.error e)
        ∧ (∀ curr e reqs, CurrentVersion currentVersion = Except.ok curr →
            AvailableVersion env.net repo pre versionStable = (Except.error e, reqs) →
            (CheckAndNotifyIfOutOfDate env (some mt) tool currentVersion repo pre
                versionStable hours).result = Except.error e)
        ∧ (∀ curr avail reqs, CurrentVersion currentVersion = Except.ok curr →
            AvailableVersion env.net repo pre versionStable = (Except.ok avail, reqs) →
            (CheckAndNotifyIfOutOfDate env (some mt) tool currentVersion repo pre
                versionStable hours).result = Except.ok (Version.gt avail curr)
            ∧ (CheckAndNotifyIfOutOfDate env (some mt) tool currentVersion repo pre
                versionStable hours).requests = reqs)) := by
  refine ⟨?_, ?_⟩
  · intro hlt
    simp [CheckAndNotifyIfOutOfDate, hopen, hstat, hlt]
  · intro hge htr
    refine ⟨?_, ?_, ?_⟩
    · intro e hc
      simp [CheckAndNotifyIfOutOfDate, hopen, hstat, hge, htr, hc]
    · intro curr e reqs hc ha
      simp [CheckAndNotifyIfOutOfDate, hopen, hstat, hge, htr, hc, ha]
    · intro curr avail reqs hc ha
      constructor <;>
        simp [CheckAndNotifyIfOutOfDate, hopen, hstat, hge, htr, hc, ha]

/-- An environment whose clock stands at hour 100 and whose network
answers with version 2.0.0. -/
def c4env : CheckEnv :=
  ⟨"/home/user", "", 100, none, none, none,
    fun _ => Except.ok ⟨200, Except.ok "2.0.0"⟩⟩

/-- Witness for C4: with a marker 1 hour old and a 24-hour interval the
gate skips; with a marker 30 hours old the versions are resolved and the
call reports out of date. -/
theorem checkAndNotify_gate_and_resolution_witness :
    CheckAndNotifyIfOutOfDate c4env (some 99) "tool" "1.2.3" "r" "tool-" "stable" 24
      = ⟨Except.ok false, markerFileName c4env.homeEnv c4env.userProfileEnv "tool",
          some 99, []⟩
    ∧ (CheckAndNotifyIfOutOfDate c4env (some 70) "tool" "1.2.3" "r" "tool-" "stable" 24).result
      = Except.ok (Version.gt ⟨2, 0, 0⟩ ⟨1, 2, 3⟩) := by
  constructor
  · exact (checkAndNotify_gate_and_resolution c4env 99 "tool" "1.2.3" "r" "tool-"
      "stable" 24 rfl rfl).1 (by norm_num [c4env])
  · exact (((checkAndNotify_gate_and_resolution c4env 70 "tool" "1.2.3" "r" "tool-"
      "stable" 24 rfl rfl).2 (by norm_num [c4env]) rfl).2.2 ⟨1, 2, 3⟩ ⟨2, 0, 0⟩
      ["r" ++ "/" ++ "tool-" ++ "stable"] rfl
      (availableVersion_ok c4env.net "r" "tool-" "stable" "2.0.0" ⟨2, 0, 0⟩ rfl rfl)).1

/-- Claim C7: whenever the gate passes (elapsed time at least the
configured interval), the marker file is truncated and its modification
time refreshed to `now` within that same call, regardless of how the
subsequent version parse or resolution turns out; and when the truncation
itself fails, no network request is made and the error is surfaced. -/
theorem check_gate_pass_claims_marker (env : CheckEnv) (mt : Rat)
    (tool currentVersion repo pre versionStable : String) (hours : Rat)
    (hopen : env.openErr = none) (hstat : env.statErr = none)
    (hge : ¬ env.now - mt < hours) :
    (env.truncateErr = none →
      (CheckAndNotifyIfOutOfDate env (some mt) tool currentVersion repo pre
          versionStable hours).marker = some env.now)
    ∧ (∀ e, env.truncateErr = some e →
        (CheckAndNotifyIfOutOfDate env (some mt) tool currentVersion repo pre
            versionStable hours).requests = []
        ∧ (CheckAndNotifyIfOutOfDate env (some mt) tool currentVersion repo pre
            versionStable hours).result = Except.error e) := by
  refine ⟨?_, ?_⟩
  · intro htr
    unfold CheckAndNotifyIfOutOfDate
    rw [hopen, hstat, htr]
    simp only [hge, if_false]
    cases hc : CurrentVersion currentVersion with
    | error e => simp
    | ok curr =>
      rcases ha : AvailableVersion env.net repo pre versionStable with ⟨res, reqs⟩
      cases res <;> simp
  · intro e htr
    simp [CheckAndNotifyIfOutOfDate, hopen, hstat, hge, htr]

/-- An environment whose truncation succeeds but whose network is down,
with the clock at hour 100. -/
def c7env : CheckEnv :=
  ⟨"/home/user", "", 100, none, none, none,
    fun _ => Except.error (GoError.msg "connection refused")⟩

/-- Witness for C7: the marker is refreshed to hour 100 even though the
resolution then fails with a network error. -/
theorem check_gate_pass_claims_marker_witness :
    (CheckAndNotifyIfOutOfDate c7env (some 0) "tool" "1.2.3" "r" "tool-" "stable" 24).marker
      = some 100 :=
  (check_gate_pass_claims_marker c7env 0 "tool" "1.2.3" "r" "tool-" "stable" 24
    rfl rfl (by norm_num [c7env])).1 rfl

/-- Claim C9: the chmod-failure branch of `Download` type-asserts the
error to `*os.PathError` without a check: any chmod error that is not a
`*os.PathError` makes `Download` panic; a PathError with any underlying
message other than "not supported by windows" is returned as an error (the
temp file, already created, stays behind); only the windows PathError is
tolerated, after which the function proceeds to the fetch. -/
theorem download_chmod_assertion (env : Env) (fs : FS)
    (repo version tool tmpfn : String) (e : GoError)
    (htmp : env.tempFileResult = Except.ok tmpfn)
    (hch : env.chmodErr = some e) :
    (isOsPathError e = false →
      Download env fs repo version tool
        = DownloadOut.panicked (fsWrite fs tmpfn "") [])
    ∧ (∀ m, e = GoError.pathError m → m ≠ "not supported by windows" →
        Download env fs repo version tool
          = DownloadOut.failed (GoError.pathError m) (fsWrite fs tmpfn "") [])
    ∧ (e = GoError.pathError "not supported by windows" →
        Download env fs repo version tool
          = downloadFetch env (fsWrite fs tmpfn "") tmpfn repo version tool) := by
  refine ⟨?_, ?_, ?_⟩
  · intro hnp
    cases e with
    | pathError m => simp [isOsPathError] at hnp
    | msg s => simp [Download, htmp, hch]
    | wrap s e2 => simp [Download, htmp, hch]
  · intro m hm hne
    subst hm
    simp [Download, htmp, hch, hne]
  · intro hm
    subst hm
    simp [Download, htmp, hch]

/-- An environment whose Chmod call fails with a plain (non-PathError)
error value. -/
def c9env : Env :=
  ⟨fun _ => Except.ok ⟨200, Except.ok "BITS"⟩, "linux", "amd64",
    Except.ok "/tmp/tool_upgrade1", some (GoError.msg "chmod rejected"),
    Except.ok "/usr/local/bin/tool", none, none, none, "", none, none⟩

/-- Witness for C9: the non-PathError chmod failure makes `Download`
panic. -/
theorem download_chmod_assertion_witness :
    Download c9env [] "https://repo.example.com" "1.2.3" "tool"
      = DownloadOut.panicked (fsWrite [] "/tmp/tool_upgrade1" "") [] :=
  (download_chmod_assertion c9env [] "https://repo.example.com" "1.2.3" "tool"
    "/tmp/tool_upgrade1" (GoError.msg "chmod rejected") rfl rfl).1 rfl

/-- An environment whose binary endpoint answers HTTP 404. -/
def c2envStatus : Env :=
  ⟨fun _ => Except.ok ⟨404, Except.error (GoError.msg "Not Found")⟩, "linux", "amd64",
    Except.ok "/tmp/tool_upgrade1", none,
    Except.ok "/usr/local/bin/tool", none, none, none, "", none, none⟩

/-- An environment whose binary endpoint answers 200 but whose body
read/write fails mid-stream. -/
def c2envBody : Env :=
  ⟨fun _ => Except.ok ⟨200, Except.error (GoError.msg "connection reset")⟩, "linux", "amd64",
    Except.ok "/tmp/tool_upgrade1", none,
    Except.ok "/usr/local/bin/tool", none, none, none, "", none, none⟩

/-- An environment whose Chmod call fails with a PathError other than the
tolerated windows one. -/
def c2envChmod : Env :=
  ⟨fun _ => Except.ok ⟨200, Except.ok "BITS"⟩, "linux", "amd64",
    Except.ok "/tmp/tool_upgrade1", some (GoError.pathError "operation not permitted"),
    Except.ok "/usr/local/bin/tool", none, none, none, "", none, none⟩

/-- Claim C2 counter-evidence: on a non-200 status, on a failure while
streaming the body, and on a fatal chmod failure, `Download` returns an
error but leaves the created temp file in the filesystem.  (Only the
`http.Get` transport failure assigns the outer `err` that the deferred
cleanup checks; the non-200 branch returns a fresh error without
assigning it, the `io.Copy` error shadows it, and the chmod branch
returns before the cleanup is registered.) -/
theorem download_orphans_temp_file :
    Download c2envStatus [] "https://repo.example.com" "1.2.3" "tool"
      = DownloadOut.failed
          (GoError.msg ("while getting updated binary; unexpected status " ++ toString 404))
          [("/tmp/tool_upgrade1", "")]
          ["https://repo.example.com" ++ "/" ++ "1.2.3" ++ "/" ++ "tool" ++ "_" ++ "linux" ++ "_" ++ "amd64"]
    ∧ Download c2envBody [] "https://repo.example.com" "1.2.3" "tool"
      = DownloadOut.failed (GoError.msg "connection reset")
          [("/tmp/tool_upgrade1", "")]
          ["https://repo.example.com" ++ "/" ++ "1.2.3" ++ "/" ++ "tool" ++ "_" ++ "linux" ++ "_" ++ "amd64"]
    ∧ Download c2envChmod [] "https://repo.example.com" "1.2.3" "tool"
      = DownloadOut.failed (GoError.pathError "operation not permitted")
          [("/tmp/tool_upgrade1", "")] []
    ∧ fsRead [("/tmp/tool_upgrade1", "")] "/tmp/tool_upgrade1" = some "" :=
  ⟨rfl, rfl, rfl, rfl⟩

/-- A network answering the version endpoint with 1.2.3 and every other
URL (the binary endpoint) with the new executable's bytes. -/
def c1net : Net := fun url =>
  if url = "https://repo.example.com" ++ "/" ++ "tool-" ++ "stable" then
    Except.ok ⟨200, Except.ok "1.2.3"⟩
  else Except.ok ⟨200, Except.ok "NEWBYTES"⟩

/-- An environment in which every step succeeds except the copy of the
temp file over the executable, which fails leaving truncated bytes
there. -/
def c1env : Env :=
  ⟨c1net, "linux", "amd64", Except.ok "/tmp/tool_upgrade1", none,
    Except.ok "/usr/local/bin/tool", none, none,
    some (GoError.msg "copy: permission denied"), "TRUNCATED", none, none⟩

/-- Claim C1 counter-evidence: when the copy fails and the recovery rename
of the backup succeeds, the original bytes are indeed restored at the
executable path and the temp file is retained — but `Upgrade` returns a
nil error (`done none`), not a non-nil recovered-class error: the copy
error held in `err` was overwritten by the successful recovery rename,
and `errors.Wrap` of that nil `err` yields nil. -/
theorem upgrade_copy_failure_recovery_returns_nil :
    Upgrade c1env [("/usr/local/bin/tool", "OLDBYTES")] "tool" "1.2.2"
        "https://repo.example.com" "tool-" "stable" false
      = UpgradeOut.done none
          [("/tmp/tool_upgrade1", "NEWBYTES"), ("/usr/local/bin/tool", "OLDBYTES")]
          ["https://repo.example.com" ++ "/" ++ "tool-" ++ "stable",
           "https://repo.example.com" ++ "/" ++ "1.2.3" ++ "/" ++ "tool" ++ "_" ++ "linux" ++ "_" ++ "amd64"]
    ∧ fsRead [("/tmp/tool_upgrade1", "NEWBYTES"), ("/usr/local/bin/tool", "OLDBYTES")]
        "/usr/local/bin/tool" = some "OLDBYTES"
    ∧ fsRead [("/tmp/tool_upgrade1", "NEWBYTES"), ("/usr/local/bin/tool", "OLDBYTES")]
        "/tmp/tool_upgrade1" = some "NEWBYTES" :=
  ⟨rfl, rfl, rfl⟩

/-- Claim C5: with `force` false and the current version at least the
available one, `Upgrade` returns nil after only the version GET: the
filesystem is returned unchanged and no binary-download request is
made. -/
theorem upgrade_up_to_date_noop (env : Env) (fs : FS)
    (tool currentVersion repo pre versionStable : String)
    (curr avail : Version) (verBody : Bytes)
    (hcurr : CurrentVersion currentVersion = Except.ok curr)
    (hnet1 : env.net (repo ++ "/" ++ pre ++ versionStable)
      = Except.ok ⟨200, Except.ok verBody⟩)
    (hparse : semverMake verBody = Except.ok avail)
    (hgte : Version.gte curr avail = true) :
    Upgrade env fs tool currentVersion repo pre versionStable false
      = UpgradeOut.done none fs [repo ++ "/" ++ pre ++ versionStable] := by
  simp [Upgrade, hcurr,
    availableVersion_ok env.net repo pre versionStable verBody avail hnet1 hparse, hgte]

/-- An environment whose version endpoint reports 1.2.2, older than the
running 1.2.3. -/
def c5env : Env :=
  ⟨fun _ => Except.ok ⟨200, Except.ok "1.2.2"⟩, "linux", "amd64",
    Except.ok "/tmp/tool_upgrade1", none, Except.ok "/usr/local/bin/tool",
    none, none, none, "", none, none⟩

/-- Witness for C5: current 1.2.3, available 1.2.2, force off: the
filesystem comes back unchanged and only the version URL was fetched. -/
theorem upgrade_up_to_date_noop_witness :
    Upgrade c5env [("/usr/local/bin/tool", "OLDBYTES")] "tool" "1.2.3"
        "https://repo.example.com" "tool-" "stable" false
      = UpgradeOut.done none [("/usr/local/bin/tool", "OLDBYTES")]
          ["https://repo.example.com" ++ "/" ++ "tool-" ++ "stable"] :=
  upgrade_up_to_date_noop c5env [("/usr/local/bin/tool", "OLDBYTES")] "tool"
    "1.2.3" "https://repo.example.com" "tool-" "stable"
    ⟨1, 2, 3⟩ ⟨1, 2, 2⟩ "1.2.2" rfl rfl rfl rfl

/-- Claim C3: a successful `Upgrade` run with the available version
strictly greater than the current one leaves the bytes served by the
binary endpoint at the executable's own path, and the original bytes in a
backup at that path with "~" appended. -/
theorem upgrade_success_installs_and_backs_up (env : Env) (fs : FS)
    (tool currentVersion repo pre versionStable : String)
    (curr avail : Version) (arg0 tmpfn : String) (orig newBytes verBody : Bytes)
    (hcurr : CurrentVersion currentVersion = Except.ok curr)
    (hnet1 : env.net (repo ++ "/" ++ pre ++ versionStable)
      = Except.ok ⟨200, Except.ok verBody⟩)
    (hparse : semverMake verBody = Except.ok avail)
    (hgt : Version.gt avail curr = true)
    (hexe : env.executableResult = Except.ok arg0)
    (hrm : env.removeAllBackupErr = none)
    (htmp : env.tempFileResult = Except.ok tmpfn)
    (hch : env.chmodErr = none)
    (hnet2 : env.net (repo ++ "/" ++ versionString avail ++ "/" ++ tool ++ "_"
        ++ env.goos ++ "_" ++ env.goarch) = Except.ok ⟨200, Except.ok newBytes⟩)
    (hren : env.renameToBackupErr = none)
    (hcp : env.copyErr = none)
    (hrmt : env.removeTmpErr = none)
    (hread : fsRead fs arg0 = some orig)
    (h1 : tmpfn ≠ arg0) (h2 : tmpfn ≠ arg0 ++ "~") (h3 : arg0 ≠ arg0 ++ "~") :
    ∃ fsOut reqs,
      Upgrade env fs tool currentVersion repo pre versionStable false
        = UpgradeOut.done none fsOut reqs
      ∧ fsRead fsOut arg0 = some newBytes
      ∧ fsRead fsOut (arg0 ++ "~") = some orig := by
  have hgte : Version.gte curr avail = false := by
    unfold Version.gt at hgt
    unfold Version.gte
    rw [hgt]
    rfl
  have hread2 : fsRead (fsWrite (fsRemove fs (arg0 ++ "~")) tmpfn newBytes) arg0
      = some orig := by
    rw [fsRead_fsWrite_ne _ (Ne.symm h1), fsRead_fsRemove_ne _ h3, hread]
  have hread3 : fsRead (fsWrite (fsRemove (fsWrite (fsRemove fs (arg0 ++ "~"))
      tmpfn newBytes) arg0) (arg0 ++ "~") orig) tmpfn = some newBytes := by
    rw [fsRead_fsWrite_ne _ h2, fsRead_fsRemove_ne _ h1, fsRead_fsWrite_same]
  have hread4 : fsRead (fsWrite (fsWrite (fsRemove (fsWrite (fsRemove fs (arg0 ++ "~"))
      tmpfn newBytes) arg0) (arg0 ++ "~") orig) arg0 newBytes) tmpfn = some newBytes := by
    rw [fsRead_fsWrite_ne _ h1, hread3]
  refine ⟨fsRemove (fsWrite (fsWrite (fsRemove (fsWrite (fsRemove fs (arg0 ++ "~"))
      tmpfn newBytes) arg0) (arg0 ++ "~") orig) arg0 newBytes) tmpfn,
    [repo ++ "/" ++ pre ++ versionStable,
     repo ++ "/" ++ versionString avail ++ "/" ++ tool ++ "_" ++ env.goos ++ "_" ++ env.goarch],
    ?_, ?_, ?_⟩
  · simp [Upgrade, hcurr,
      availableVersion_ok env.net repo pre versionStable verBody avail hnet1 hparse,
      hgte, removeBackup_ok env fs arg0 hexe hrm,
      download_ok env (fsRemove fs (arg0 ++ "~")) repo (versionString avail) tool
        tmpfn newBytes htmp hch hnet2,
      hren, hcp, hrmt, osRename, osRemove, shutilCopy, hread2, hread3, hread4]
  · rw [fsRead_fsRemove_ne _ (Ne.symm h1), fsRead_fsWrite_same]
  · rw [fsRead_fsRemove_ne _ (Ne.symm h2), fsRead_fsWrite_ne _ (Ne.symm h3),
      fsRead_fsWrite_same]

/-- A network answering the version endpoint with 1.2.3 and the binary
endpoint with the new executable's bytes. -/
def c3net : Net := fun url =>
  if url = "https://repo.example.com" ++ "/" ++ "tool-" ++ "stable" then
    Except.ok ⟨200, Except.ok "1.2.3"⟩
  else Except.ok ⟨200, Except.ok "NEWBYTES"⟩

/-- An environment in which every step of the replacement succeeds. -/
def c3env : Env :=
  ⟨c3net, "linux", "amd64", Except.ok "/tmp/tool_upgrade1", none,
    Except.ok "/usr/local/bin/tool", none, none, none, "", none, none⟩

/-- Witness for C3: upgrading from 1.2.2 to 1.2.3 installs NEWBYTES at the
executable path and backs the original bytes up at the tilde path. -/
theorem upgrade_success_installs_and_backs_up_witness :
    ∃ fsOut reqs,
      Upgrade c3env [("/usr/local/bin/tool", "OLDBYTES")] "tool" "1.2.2"
          "https://repo.example.com" "tool-" "stable" false
        = UpgradeOut.done none fsOut reqs
      ∧ fsRead fsOut "/usr/local/bin/tool" = some "NEWBYTES"
      ∧ fsRead fsOut ("/usr/local/bin/tool" ++ "~") = some "OLDBYTES" :=
  upgrade_success_installs_and_backs_up c3env
    [("/usr/local/bin/tool", "OLDBYTES")] "tool" "1.2.2" "https://repo.example.com"
    "tool-" "stable" ⟨1, 2, 2⟩ ⟨1, 2, 3⟩ "/usr/local/bin/tool" "/tmp/tool_upgrade1"
    "OLDBYTES" "NEWBYTES" "1.2.3" rfl rfl rfl rfl rfl rfl rfl rfl rfl rfl rfl rfl
    rfl (by decide) (by decide) (by decide)

/-- Claim C6: when the rename of the executable to the backup path fails,
`Upgrade` returns a non-nil wrapped error; the original bytes are still at
the executable's own path and the already-downloaded temp file is left in
place. -/
theorem upgrade_rename_failure_aborts (env : Env) (fs : FS)
    (tool currentVersion repo pre versionStable : String)
    (curr avail : Version) (arg0 tmpfn : String) (orig newBytes verBody : Bytes)
    (e : GoError)
    (hcurr : CurrentVersion currentVersion = Except.ok curr)
    (hnet1 : env.net (repo ++ "/" ++ pre ++ versionStable)
      = Except.ok ⟨200, Except.ok verBody⟩)
    (hparse : semverMake verBody = Except.ok avail)
    (hgt : Version.gt avail curr = true)
    (hexe : env.executableResult = Except.ok arg0)
    (hrm : env.removeAllBackupErr = none)
    (htmp : env.tempFileResult = Except.ok tmpfn)
    (hch : env.chmodErr = none)
    (hnet2 : env.net (repo ++ "/" ++ versionString avail ++ "/" ++ tool ++ "_"
        ++ env.goos ++ "_" ++ env.goarch) = Except.ok ⟨200, Except.ok newBytes⟩)
    (hren : env.renameToBackupErr = some e)
    (hread : fsRead fs arg0 = some orig)
    (h1 : tmpfn ≠ arg0) (h3 : arg0 ≠ arg0 ++ "~") :
    ∃ fsOut reqs,
      Upgrade env fs tool currentVersion repo pre versionStable false
        = UpgradeOut.done
            (some (GoError.wrap
              ("unable to upgrade " ++ tool ++ " in-place; move " ++ tmpfn ++ " to " ++ arg0) e))
            fsOut reqs
      ∧ fsRead fsOut arg0 = some orig
      ∧ fsRead fsOut tmpfn = some newBytes := by
  have hgte : Version.gte curr avail = false := by
    unfold Version.gt at hgt
    unfold Version.gte
    rw [hgt]
    rfl
  refine ⟨fsWrite (fsRemove fs (arg0 ++ "~")) tmpfn newBytes,
    [repo ++ "/" ++ pre ++ versionStable,
     repo ++ "/" ++ versionString avail ++ "/" ++ tool ++ "_" ++ env.goos ++ "_" ++ env.goarch],
    ?_, ?_, ?_⟩
  · simp [Upgrade, hcurr,
      availableVersion_ok env.net repo pre versionStable verBody avail hnet1 hparse,
      hgte, removeBackup_ok env fs arg0 hexe hrm,
      download_ok env (fsRemove fs (arg0 ++ "~")) repo (versionString avail) tool
        tmpfn newBytes htmp hch hnet2,
      hren, osRename, errorsWrap]
  · rw [fsRead_fsWrite_ne _ (Ne.symm h1), fsRead_fsRemove_ne _ h3, hread]
  · rw [fsRead_fsWrite_same]

/-- An environment like the successful one, except that the rename of the
executable to the backup path fails. -/
def c6env : Env :=
  ⟨c3net, "linux", "amd64", Except.ok "/tmp/tool_upgrade1", none,
    Except.ok "/usr/local/bin/tool", none,
    some (GoError.msg "rename: permission denied"), none, "", none, none⟩

/-- Witness for C6: the failed backup rename aborts the upgrade with a
non-nil error while the original executable and the temp file both stay
where they were. -/
theorem upgrade_rename_failure_aborts_witness :
    ∃ fsOut reqs,
      Upgrade c6env [("/usr/local/bin/tool", "OLDBYTES")] "tool" "1.2.2"
          "https://repo.example.com" "tool-" "stable" false
        = UpgradeOut.done
            (some (GoError.wrap
              ("unable to upgrade " ++ "tool" ++ " in-place; move " ++ "/tmp/tool_upgrade1"
                ++ " to " ++ "/usr/local/bin/tool")
              (GoError.msg "rename: permission denied")))
            fsOut reqs
      ∧ fsRead fsOut "/usr/local/bin/tool" = some "OLDBYTES"
      ∧ fsRead fsOut "/tmp/tool_upgrade1" = some "NEWBYTES" :=
  upgrade_rename_failure_aborts c6env [("/usr/local/bin/tool", "OLDBYTES")] "tool"
    "1.2.2" "https://repo.example.com" "tool-" "stable" ⟨1, 2, 2⟩ ⟨1, 2, 3⟩
    "/usr/local/bin/tool" "/tmp/tool_upgrade1" "OLDBYTES" "NEWBYTES" "1.2.3"
    (GoError.msg "rename: permission denied") rfl rfl rfl rfl rfl rfl rfl rfl rfl
    rfl rfl (by decide) (by decide)
